import Mathlib

/-
Shallow embedding of the shaddock model-resolution engine
(src/shaddock/model.py) together with theorems settling the frozen claims
about it.

Modelling conventions:
* Python/YAML values are `PyVal` (strings, ints, booleans, None, lists,
  string-keyed mappings).  YAML mapping keys are modelled as strings; the
  claims under study only exercise string keys.
* Python exceptions become the `Err` inductive.  The source raises a single
  exception class `TemplateFileError` with distinct messages for every model
  error; the spec's error taxonomy (`ClusterNotFoundError`, ...) names these
  raise sites by subkind, so `Err.templateFileError` carries a `TFEKind`
  identifying the raise site plus the string interpolated into the message.
  `Err.keyError`, `Err.typeError`, `Err.attributeError` are the uncaught
  built-in Python exceptions the code can also produce.
* `yaml.load` applied to a services string is an external library call; it is
  passed in as a parameter `yload : String → Except Err PyVal`.  Concrete
  instantiations used in witnesses map exactly the strings they are applied
  to, to the value the YAML library produces for them.
* In-place mutation of the loaded tree (the source mutates cluster and
  service dicts) is modelled by returning the updated records explicitly.
  The cyclic back-reference `service['cluster'] = cluster` is modelled as a
  value snapshot of the owning cluster carried in the `Service` record (the
  code only ever reads `name`, `images`, `hosts` from it, none of which are
  mutated after stamping).
-/

namespace Shaddock

mutual

/-- Python/YAML values as they occur in a loaded shaddock model. -/
inductive PyVal where
  | str (s : String)
  | int (n : Int)
  | bool (b : Bool)
  | pynone
  | list (xs : PyList)
  | dict (kvs : PyDict)
  deriving DecidableEq

/-- Lists of `PyVal` (a separate inductive so structural recursion and
derived decidable equality are available). -/
inductive PyList where
  | nil
  | cons (x : PyVal) (xs : PyList)
  deriving DecidableEq

/-- String-keyed Python dicts of `PyVal`, in insertion order. -/
inductive PyDict where
  | nil
  | cons (k : String) (v : PyVal) (rest : PyDict)
  deriving DecidableEq

end

/-- Build a `PyList` from a Lean list. -/
def PyList.ofList : List PyVal → PyList
  | [] => .nil
  | x :: xs => .cons x (PyList.ofList xs)

/-- View a `PyList` as a Lean list. -/
def PyList.toList : PyList → List PyVal
  | .nil => []
  | .cons x xs => x :: PyList.toList xs

/-- Build a `PyDict` from a Lean association list. -/
def PyDict.ofList : List (String × PyVal) → PyDict
  | [] => .nil
  | (k, v) :: xs => .cons k v (PyDict.ofList xs)

/-- Python `d[k]` / `d.get(k)`: first binding of `k`, if any. -/
def PyDict.get : PyDict → String → Option PyVal
  | .nil, _ => none
  | .cons k v rest, n => if k = n then some v else PyDict.get rest n

/-- Python `d.keys()` in insertion order. -/
def PyDict.keys : PyDict → List String
  | .nil => []
  | .cons k _ rest => k :: PyDict.keys rest

mutual

/-- Python `repr` of a value (dict/list display with quoted strings), as
used by `str()` on non-string values. -/
def pyRepr : PyVal → String
  | .str s => "\x27" ++ s ++ "\x27"
  | .int n => toString n
  | .bool b => if b then "True" else "False"
  | .pynone => "None"
  | .list xs => "[" ++ pyReprL xs ++ "]"
  | .dict kvs => "\x7b" ++ pyReprD kvs ++ "\x7d"

/-- Comma-separated `repr` of list elements. -/
def pyReprL : PyList → String
  | .nil => ""
  | .cons x .nil => pyRepr x
  | .cons x xs => pyRepr x ++ ", " ++ pyReprL xs

/-- Comma-separated `repr` of dict items. -/
def pyReprD : PyDict → String
  | .nil => ""
  | .cons k v .nil => "\x27" ++ k ++ "\x27: " ++ pyRepr v
  | .cons k v xs => "\x27" ++ k ++ "\x27: " ++ pyRepr v ++ ", " ++ pyReprD xs

end

/-- Python `str()`: identity on strings, `repr` otherwise
(`str(cluster['services'])` at model.py:48). -/
def pyStr : PyVal → String
  | .str s => s
  | v => pyRepr v

/-- Raise sites of `TemplateFileError` in model.py, i.e. the subkinds of the
spec's single template/model error taxonomy (spec §7).  Each carries, via
`Err.templateFileError`, the name interpolated into its message. -/
inductive TFEKind where
  | clusterNotFound
  | duplicateCluster
  | missingClusterName
  | serviceNotFound
  | duplicateService
  | missingServiceName
  | missingImagesKey
  | missingImage
  | hostNotFound
  | duplicateHost
  | includeNotFound
  deriving DecidableEq

/-- Exceptions observable from the embedded code: the model errors
(`templateFileError` with the raise-site kind and the interpolated name) and
the uncaught Python built-ins the code can leak. -/
inductive Err where
  | keyError (k : String)
  | typeError
  | attributeError
  | parseError
  | recursionLimit
  | templateFileError (kind : TFEKind) (name : String)
  deriving DecidableEq

/-- Whether an error is a `TemplateFileError` (of any subkind). -/
def Err.isTemplate : Err → Bool
  | .templateFileError _ _ => true
  | _ => false

/-- CLI arguments consumed by `ModelDefinition` (`app_args` fields read in
model.py). -/
structure AppArgs where
  shdk_cluster : Option String
  shdk_model : Option String
  shdk_imgdir : Option String
  docker_url : Option String
  docker_version : Option String
  docker_cert_path : Option String
  docker_key_path : Option String
  docker_cacert_path : Option String
  docker_tls_verify : Bool
  docker_tls : Bool
  docker_boot2docker : Bool
  deriving DecidableEq

/-- One cluster record of the loaded document.  Each field is the value of
the corresponding dict key, `none` meaning the key is absent (reading an
absent key raises `KeyError`).  `hosts`, when present, is the sequence of
host dicts. -/
structure Cluster where
  name : Option String
  services : Option PyVal
  vars : Option (List (String × String))
  images : Option PyVal
  hosts : Option (List PyDict)
  deriving DecidableEq

/-- A service entry after expansion and stamping (model.py:85-88): the parsed
service dict plus the `cluster_name` stamp and the back-reference to the
owning (already mutated) cluster. -/
structure Service where
  dict : PyDict
  cluster_name : String
  cluster : Cluster
  deriving DecidableEq

/-- The resolved descriptor `get_service` returns: the stamped service plus
the keys the method writes into it.  `ports`/`volumes` are `none` when the
raw key was absent or `None` (the code then leaves the dict untouched). -/
structure ResolvedService where
  base : Service
  images_dir : String
  path : String
  ports : Option (List String)
  port_bindings : Option PyVal
  volumes : Option (List String)
  binds : Option PyVal
  api_cfg : PyDict
  deriving DecidableEq

/-- Whether `pre` is a prefix of `s` (a reduction-friendly
`String.startsWith`). -/
def strStarts (s pre : String) : Bool := pre.data.isPrefixOf s.data

/-- Whether `suf` is a suffix of `s` (a reduction-friendly
`String.endsWith`). -/
def strEnds (s suf : String) : Bool := suf.data.reverse.isPrefixOf s.data.reverse

/-- Strip leading and trailing whitespace (a reduction-friendly
`String.trim`). -/
def trimStr (s : String) : String :=
  String.mk ((s.data.dropWhile Char.isWhitespace).reverse.dropWhile Char.isWhitespace).reverse

/-- Python `s.split(":")[0]`: the characters before the first colon. -/
def splitColonHead (s : String) : String :=
  String.mk (s.data.takeWhile (fun c => c != ':'))

/-- `os.path.join(a, b)` for the two-argument uses in model.py: an absolute
second component replaces the first, otherwise the components are joined
with a single separator. -/
def pathJoin (a b : String) : String :=
  if strStarts b "/" then b
  else if a = "" then b
  else if strEnds a "/" then a ++ b
  else a ++ "/" ++ b

/-- `os.path.split(p)`: divide at the last slash; the head keeps no trailing
slashes unless it consists only of slashes. -/
def splitPath (p : String) : String × String :=
  let cs := p.data
  let tl := (cs.reverse.takeWhile (fun c => c != '/')).reverse
  let hd := cs.take (cs.length - tl.length)
  let hd2 := if hd.all (fun c => c == '/') then hd else (hd.reverse.dropWhile (fun c => c == '/')).reverse
  (String.mk hd2, String.mk tl)

/-- `os.path.dirname(p)` = `os.path.split(p)[0]`. -/
def dirname (p : String) : String := (splitPath p).1

/-- Per-cluster body of `ModelDefinition._get_clusters_list` (model.py:47-49):
`cluster['services'] = str(cluster['services'])`, an in-place mutation of the
cluster record; a missing `services` key raises `KeyError`. -/
def strServices (c : Cluster) : Except Err Cluster :=
  match c.services with
  | none => .error (.keyError "services")
  | some v => .ok { c with services := some (.str (pyStr v)) }

/-- `ModelDefinition._get_clusters_list` (model.py:41-51): walk the cluster
sequence, coercing each cluster's `services` to its string form and
collecting the (mutated) records. -/
def getClustersList : List Cluster → Except Err (List Cluster)
  | [] => .ok []
  | c :: rest =>
    match strServices c with
    | .error e => .error e
    | .ok c2 =>
      match getClustersList rest with
      | .error e => .error e
      | .ok rest2 => .ok (c2 :: rest2)

/-- The list comprehension `[clu for clu in cluster_list if clu['name'] == name]`
(model.py:56-57), evaluated left to right: a cluster without a `name` key
raises `KeyError` at its position. -/
def filterByName : List Cluster → String → Except Err (List Cluster)
  | [], _ => .ok []
  | c :: rest, n =>
    match c.name with
    | none => .error (.keyError "name")
    | some cn =>
      match filterByName rest n with
      | .error e => .error e
      | .ok r => .ok (if cn = n then c :: r else r)

/-- `ModelDefinition._get_cluster` (model.py:53-71).  The `KeyError` from the
comprehension is caught and reported as the missing-name model error; the
`IndexError` from `cluster[0]` is caught and reported as cluster-not-found;
the duplicate-name `TemplateFileError` raised inside the `try` block is not
caught by either handler and propagates. -/
def getCluster (clusters : List Cluster) (name : String) : Except Err Cluster :=
  match getClustersList clusters with
  | .error e => .error e
  | .ok cl =>
    match filterByName cl name with
    | .error (.keyError _) => .error (.templateFileError .missingClusterName "")
    | .error e => .error e
    | .ok ms =>
      if ms.length > 1 then .error (.templateFileError .duplicateCluster name)
      else
        match ms with
        | [] => .error (.templateFileError .clusterNotFound name)
        | m :: _ => .ok m

/-- Lookup in the variable mapping passed to `render`. -/
def varLookup : List (String × String) → String → Option String
  | [], _ => none
  | (k, v) :: rest, n => if k = n then some v else varLookup rest n

/-- Scan up to the closing delimiter of a jinja2 variable expression,
returning the expression characters and the remainder of the input. -/
def takeVar : List Char → (List Char × List Char)
  | [] => ([], [])
  | '\x7d' :: '\x7d' :: rest => ([], rest)
  | c :: rest =>
    let p := takeVar rest
    (c :: p.1, p.2)

/-- Fuel-indexed renderer for jinja2 variable interpolation: literal text is
copied; a variable expression is replaced by its binding, or by the empty
string when the variable is unbound (jinja2's default `Undefined` renders as
the empty string rather than raising).  The fuel is an upper bound on the
number of scanning steps; `j2render` supplies enough for the whole input. -/
def renderChars (vs : List (String × String)) : Nat → List Char → String
  | 0, _ => ""
  | _ + 1, [] => ""
  | n + 1, '\x7b' :: '\x7b' :: rest =>
    let p := takeVar rest
    ((varLookup vs (trimStr (String.mk p.1))).getD "") ++ renderChars vs n p.2
  | n + 1, c :: rest => String.mk [c] ++ renderChars vs n rest

/-- `Template(source).render(vars)` as used at model.py:79-80: jinja2
variable interpolation with the library's default `Undefined` behaviour. -/
def j2render (source : String) (vs : List (String × String)) : String :=
  renderChars vs (source.length + 1) source.data

/-- Python iteration `for service in cluster['services']` (model.py:85):
lists iterate their elements, strings their characters, dicts their keys;
any other value is not iterable and raises `TypeError`. -/
def iterElems : PyVal → Option (List PyVal)
  | .list xs => some xs.toList
  | .str s => some (s.data.map (fun c => .str (String.mk [c])))
  | .dict kvs => some (kvs.keys.map PyVal.str)
  | _ => none

/-- The stamping loop of `_get_services_list_from_clu` (model.py:85-88): each
iterated element receives `cluster_name` (reading `cluster['name']` first,
`KeyError` when absent) and the back-reference to the owning cluster; item
assignment on a non-dict element raises `TypeError`. -/
def stampServices (clu : Cluster) : List PyVal → Except Err (List Service)
  | [] => .ok []
  | x :: rest =>
    match clu.name with
    | none => .error (.keyError "name")
    | some cn =>
      match x with
      | .dict kvs =>
        match stampServices clu rest with
        | .error e => .error e
        | .ok r => .ok ({ dict := kvs, cluster_name := cn, cluster := clu } :: r)
      | _ => .error .typeError

/-- `ModelDefinition._get_services_list_from_clu` (model.py:73-90): when the
cluster has a `vars` mapping, render the services string as a jinja2 template
with it before parsing, otherwise parse the string directly; store the parsed
value back into the cluster (`cluster['services'] = services`, mutation);
then stamp every service entry.  `yload` is the external `yaml.load`. -/
def servicesListFromClu (yload : String → Except Err PyVal) (cluster : Cluster) :
    Except Err (List Service × Cluster) :=
  match cluster.services with
  | none => .error (.keyError "services")
  | some sv =>
    match sv with
    | .str s =>
      let parsedE := match cluster.vars with
        | some vs => yload (j2render s vs)
        | none => yload s
      match parsedE with
      | .error e => .error e
      | .ok parsed =>
        let cluster2 := { cluster with services := some parsed }
        match iterElems parsed with
        | none => .error .typeError
        | some elems =>
          match stampServices cluster2 elems with
          | .error e => .error e
          | .ok svcs => .ok (svcs, cluster2)
    | _ => .error .typeError

/-- Concatenation of the per-cluster service lists in document order
(model.py:96-100). -/
def expandAll (yload : String → Except Err PyVal) : List Cluster → Except Err (List Service)
  | [] => .ok []
  | c :: rest =>
    match servicesListFromClu yload c with
    | .error e => .error e
    | .ok (svcs, _) =>
      match expandAll yload rest with
      | .error e => .error e
      | .ok more => .ok (svcs ++ more)

/-- `ModelDefinition.get_services_list` (model.py:92-104): without a cluster
scope, expand every cluster of the document in order; with a scope, resolve
that cluster and expand only it. -/
def getServicesList (yload : String → Except Err PyVal) (args : AppArgs)
    (clusters : List Cluster) : Except Err (List Service) :=
  match args.shdk_cluster with
  | none =>
    match getClustersList clusters with
    | .error e => .error e
    | .ok cl => expandAll yload cl
  | some cn =>
    match getCluster clusters cn with
    | .error e => .error e
    | .ok c =>
      match servicesListFromClu yload c with
      | .error e => .error e
      | .ok (svcs, _) => .ok svcs

/-- The comprehension `[svc for svc in services_list if svc['name'] == name]`
(model.py:111-112): a service dict without a `name` key raises `KeyError`;
a non-string `name` value simply fails the comparison. -/
def filterSvcByName : List Service → String → Except Err (List Service)
  | [], _ => .ok []
  | s :: rest, n =>
    match s.dict.get "name" with
    | none => .error (.keyError "name")
    | some v =>
      match filterSvcByName rest n with
      | .error e => .error e
      | .ok r => .ok (if v = .str n then s :: r else r)

/-- The service-selection block of `get_service` (model.py:110-126), with the
same try/except structure as `_get_cluster`. -/
def pickService (svcs : List Service) (name : String) : Except Err Service :=
  match filterSvcByName svcs name with
  | .error (.keyError _) => .error (.templateFileError .missingServiceName "")
  | .error e => .error e
  | .ok ms =>
    if ms.length > 1 then .error (.templateFileError .duplicateService name)
    else
      match ms with
      | [] => .error (.templateFileError .serviceNotFound name)
      | m :: _ => .ok m

/-- The images-dir block of `get_service` (model.py:130-143).  The `try`
block catches only `TypeError` (raised by `os.path.dirname(None)` when no
model path is set, or by `os.path.join` on a non-string `images` value); a
cluster record without an `images` key raises `KeyError` at
`service['cluster']['images']`, which the handler does not catch. -/
def imagesDirStep (args : AppArgs) (svc : Service) : Except Err String :=
  match args.shdk_imgdir with
  | some d => .ok d
  | none =>
    match args.shdk_model with
    | none => .error (.templateFileError .missingImagesKey "")
    | some mpath =>
      match svc.cluster.images with
      | none => .error (.keyError "images")
      | some (.str s) => .ok (pathJoin (dirname mpath) s)
      | some _ => .error (.templateFileError .missingImagesKey "")

/-- The image-presence check of `get_service` (model.py:144-149) together
with the `service['image'].split(":")` access of the path line: a missing
`image` key is the model error naming the service, a non-string `image`
raises `AttributeError` at `.split`. -/
def imageStep (svc : Service) (name : String) : Except Err String :=
  match svc.dict.get "image" with
  | none => .error (.templateFileError .missingImage name)
  | some (.str s) => .ok s
  | some _ => .error .attributeError

/-- The ports block of `get_service` (model.py:156-160): when the raw
`ports` value is present and not `None` it must be a mapping (`.keys()` on
anything else raises `AttributeError`); its keys become `ports` and the
mapping is kept verbatim as `port_bindings`. -/
def portsStep (svc : Service) : Except Err (Option (List String) × Option PyVal) :=
  match svc.dict.get "ports" with
  | none => .ok (none, none)
  | some .pynone => .ok (none, none)
  | some (.dict kvs) => .ok (some kvs.keys, some (.dict kvs))
  | some _ => .error .attributeError

/-- The volumes block of `get_service` (model.py:162-167): identical in shape
to the ports block — the raw `volumes` value is read as a mapping whose keys
become `volumes` and which is kept verbatim as `binds`. -/
def volumesStep (svc : Service) : Except Err (Option (List String) × Option PyVal) :=
  match svc.dict.get "volumes" with
  | none => .ok (none, none)
  | some .pynone => .ok (none, none)
  | some (.dict kvs) => .ok (some kvs.keys, some (.dict kvs))
  | some _ => .error .attributeError

/-- Value stored for an optional CLI string in the override dict. -/
def optVal : Option String → PyVal
  | some s => .str s
  | none => .pynone

/-- The CLI API override record built at model.py:172-179 when `docker_url`
is given. -/
def overrideCfg (a : AppArgs) (url : String) : PyDict :=
  .ofList [("url", .str url), ("version", optVal a.docker_version),
    ("cert_path", optVal a.docker_cert_path), ("key_path", optVal a.docker_key_path),
    ("cacert_path", optVal a.docker_cacert_path), ("tls_verify", .bool a.docker_tls_verify),
    ("tls", .bool a.docker_tls), ("boot2docker", .bool a.docker_boot2docker)]

/-- The comprehension `[api for api in service['cluster']['hosts'] if
api['name'] == service['host']]` (model.py:181-182), evaluated left to right:
per element, `api['name']` is read first, then `service['host']`; a missing
key raises `KeyError` at that point. -/
def hostScan (svcDict : PyDict) : List PyDict → Except Err (List PyDict)
  | [] => .ok []
  | api :: rest =>
    match api.get "name" with
    | none => .error (.keyError "name")
    | some v =>
      match svcDict.get "host" with
      | none => .error (.keyError "host")
      | some hv =>
        match hostScan svcDict rest with
        | .error e => .error e
        | .ok r => .ok (if v = hv then api :: r else r)

/-- The host/API block of `get_service` (model.py:169-196).  With a CLI
override the hosts sequence is never consulted.  Otherwise any `KeyError`
(missing `hosts`, `host`, or a host `name`) is swallowed by
`except KeyError: pass`, leaving `api_cfg = ` the empty dict; the
duplicate-match `TemplateFileError` propagates; an empty match list raises
`IndexError`, whose handler interpolates `service['host']` into its message —
which itself raises an uncaught `KeyError` when the service has no `host`
key. -/
def apiCfgStep (args : AppArgs) (svc : Service) (name : String) : Except Err PyDict :=
  match args.docker_url with
  | some u => .ok (overrideCfg args u)
  | none =>
    match svc.cluster.hosts with
    | none => .ok .nil
    | some hosts =>
      match hostScan svc.dict hosts with
      | .error (.keyError _) => .ok .nil
      | .error e => .error e
      | .ok ms =>
        if ms.length > 1 then .error (.templateFileError .duplicateHost name)
        else
          match ms with
          | [] =>
            match svc.dict.get "host" with
            | none => .error (.keyError "host")
            | some hv => .error (.templateFileError .hostNotFound (pyStr hv))
          | m :: _ => .ok m

/-- `ModelDefinition.get_service` (model.py:106-196): select the service by
name from the expanded list, then resolve `images_dir`, check `image`,
compute `path`, split `ports` and `volumes`, and resolve `api_cfg`, in the
source's order. -/
def getService (yload : String → Except Err PyVal) (args : AppArgs)
    (clusters : List Cluster) (name : String) : Except Err ResolvedService :=
  match getServicesList yload args clusters with
  | .error e => .error e
  | .ok svcs =>
    match pickService svcs name with
    | .error e => .error e
    | .ok svc =>
      match imagesDirStep args svc with
      | .error e => .error e
      | .ok imgdir =>
        match imageStep svc name with
        | .error e => .error e
        | .ok img =>
          let path := imgdir ++ "/" ++ splitColonHead img
          match portsStep svc with
          | .error e => .error e
          | .ok pp =>
            match volumesStep svc with
            | .error e => .error e
            | .ok vv =>
              match apiCfgStep args svc name with
              | .error e => .error e
              | .ok api =>
                .ok { base := svc, images_dir := imgdir, path := path,
                      ports := pp.1, port_bindings := pp.2,
                      volumes := vv.1, binds := vv.2, api_cfg := api }

/-- The value of `strServices` on a cluster whose `services` key is present:
the record with `services` coerced to its string form. -/
def strCluster (c : Cluster) : Cluster :=
  { c with services := c.services.map (fun v => PyVal.str (pyStr v)) }

mutual

/-- Raw parsed document node before include resolution: what the YAML parser
hands the `Loader` for one file, with `inc f` standing for a node carrying
the `!include` tag whose scalar is the file name `f` (model.py:216). -/
inductive RNode where
  | scalar (s : String)
  | seq (xs : RList)
  | rmap (kvs : RKVs)
  | inc (f : String)
  deriving DecidableEq

/-- Sequence nodes. -/
inductive RList where
  | nil
  | cons (x : RNode) (xs : RList)
  deriving DecidableEq

/-- Mapping nodes (string keys). -/
inductive RKVs where
  | nil
  | cons (k : String) (v : RNode) (xs : RKVs)
  deriving DecidableEq

end

/-- The file system seen by the `Loader`, abstracting text parsing: each
readable path is mapped to the raw parsed content of that file. -/
def lookupFS : List (String × RNode) → String → Option RNode
  | [], _ => none
  | (p, n) :: rest, q => if p = q then some n else lookupFS rest q

mutual

/-- `Loader.include` recursion (model.py:210-222): traversing the parsed
tree of one file whose directory is `dir`, an `!include` node is replaced by
the recursively loaded content of `os.path.join(dir, f)`, that file's own
includes being resolved relative to *its* directory (`Loader.__init__` sets
`self._root` from the included stream's name).  A missing file — and, via
the blanket `except Exception`, any failure inside the nested load — is
reported as the include-not-found model error.  The fuel bounds the include
nesting depth; the source does not guard against circular includes, which
exhaust it. -/
def loadNode (fs : List (String × RNode)) : Nat → String → RNode → Except Err RNode
  | 0, _, _ => .error .recursionLimit
  | _ + 1, _, .scalar s => .ok (.scalar s)
  | n + 1, dir, .seq xs =>
    match loadList fs n dir xs with
    | .error e => .error e
    | .ok ys => .ok (.seq ys)
  | n + 1, dir, .rmap kvs =>
    match loadKVs fs n dir kvs with
    | .error e => .error e
    | .ok ws => .ok (.rmap ws)
  | n + 1, dir, .inc f =>
    let filename := pathJoin dir f
    match lookupFS fs filename with
    | none => .error (.templateFileError .includeNotFound filename)
    | some content =>
      match loadNode fs n (dirname filename) content with
      | .error _ => .error (.templateFileError .includeNotFound filename)
      | .ok v => .ok v

/-- Include resolution over a sequence node's children. -/
def loadList (fs : List (String × RNode)) : Nat → String → RList → Except Err RList
  | 0, _, _ => .error .recursionLimit
  | _ + 1, _, .nil => .ok .nil
  | n + 1, dir, .cons x xs =>
    match loadNode fs n dir x with
    | .error e => .error e
    | .ok y =>
      match loadList fs n dir xs with
      | .error e => .error e
      | .ok ys => .ok (.cons y ys)

/-- Include resolution over a mapping node's values. -/
def loadKVs (fs : List (String × RNode)) : Nat → String → RKVs → Except Err RKVs
  | 0, _, _ => .error .recursionLimit
  | _ + 1, _, .nil => .ok .nil
  | n + 1, dir, .cons k v xs =>
    match loadNode fs n dir v with
    | .error e => .error e
    | .ok w =>
      match loadKVs fs n dir xs with
      | .error e => .error e
      | .ok ws => .ok (.cons k w ws)

end

mutual

/-- No `!include` tag remains anywhere in the node. -/
def includeFree : RNode → Bool
  | .scalar _ => true
  | .inc _ => false
  | .seq xs => includeFreeL xs
  | .rmap kvs => includeFreeK kvs

/-- No `!include` tag remains in a sequence node's children. -/
def includeFreeL : RList → Bool
  | .nil => true
  | .cons x xs => includeFree x && includeFreeL xs

/-- No `!include` tag remains in a mapping node's values. -/
def includeFreeK : RKVs → Bool
  | .nil => true
  | .cons _ v xs => includeFree v && includeFreeK xs

end

/-
Concrete model instances used by counterexamples and witnesses.  The `yload`
functions below map exactly the services strings they are applied to, to the
value PyYAML produces for those strings.
-/

/-- CLI arguments with a cluster scope and a model path but no overrides. -/
def argsBase : AppArgs :=
  { shdk_cluster := some "core", shdk_model := some "models/model.yml", shdk_imgdir := none,
    docker_url := none, docker_version := none, docker_cert_path := none,
    docker_key_path := none, docker_cacert_path := none, docker_tls_verify := false,
    docker_tls := false, docker_boot2docker := false }

/-- YAML parse of the two services documents used by the concrete models:
`"- name: nova\n  image: img"` and `"- name: nova"`. -/
def yloadNova : String → Except Err PyVal := fun s =>
  if s = "- name: nova\n  image: img" then
    .ok (.list (.ofList [.dict (.ofList [("name", .str "nova"), ("image", .str "img")])]))
  else if s = "- name: nova" then
    .ok (.list (.ofList [.dict (.ofList [("name", .str "nova")])]))
  else .error .parseError

/-- Cluster `core` whose record has no `images` key. -/
def cluNoImages : Cluster :=
  { name := some "core", services := some (.str "- name: nova\n  image: img"),
    vars := none, images := none, hosts := none }

/-- Cluster `core` with an `images` path but whose single service lacks
`image`. -/
def cluNoImage : Cluster :=
  { name := some "core", services := some (.str "- name: nova"),
    vars := none, images := some (.str "images"), hosts := none }

/-- Cluster `core` with an `images` path and an empty `hosts` sequence. -/
def cluEmptyHosts : Cluster :=
  { name := some "core", services := some (.str "- name: nova\n  image: img"),
    vars := none, images := some (.str "images"), hosts := some [] }

/-- Service dict of the spec's volume example in the shape the code actually
reads: a mapping from mount path to bind record. -/
def volMap : PyDict :=
  .ofList [("/var/log/nova",
    .dict (.ofList [("bind", .str "/var/log/shaddock/nova"), ("ro", .bool false)]))]

/-- The spec's claimed raw shape for the same volume: a sequence of one
`mount`/`host_dir` entry. -/
def volSeq : PyVal :=
  .list (.ofList [.dict (.ofList
    [("mount", .str "/var/log/nova"), ("host_dir", .str "/var/log/shaddock/nova")])])

/-- A stamped service carrying the sequence-shaped volumes value. -/
def svcVolSeq : Service :=
  { dict := .ofList [("name", .str "nova"), ("image", .str "img"), ("volumes", volSeq)],
    cluster_name := "core", cluster := cluNoImage }

/-- A stamped service carrying the mapping-shaped volumes value. -/
def svcVolMap : Service :=
  { dict := .ofList [("name", .str "nova"), ("image", .str "img"), ("volumes", .dict volMap)],
    cluster_name := "core", cluster := cluNoImage }

/-- A stamped service with no `host` key, owned by the empty-`hosts`
cluster. -/
def svcNoHost : Service :=
  { dict := .ofList [("name", .str "nova"), ("image", .str "img")],
    cluster_name := "core", cluster := cluEmptyHosts }

/-- A one-cluster document used by the mutation counterexample. -/
def cexClusters : List Cluster :=
  [{ name := some "a", services := some (.list .nil), vars := none, images := none,
     hosts := none }]

/-- The same document after one `_get_clusters_list` call: the structured
`services` value has been replaced by its `str()` form. -/
def cexClustersAfter : List Cluster :=
  [{ name := some "a", services := some (.str "[]"), vars := none, images := none,
     hosts := none }]

/-- Hosts sequence containing a single host named `node1`. -/
def hostsNode1 : List PyDict :=
  [.ofList [("name", .str "node1"), ("url", .str "tcp://node1:2375")]]

/-- Hosts sequence containing a single host named `other` (no match for
`node1`). -/
def hostsOther : List PyDict :=
  [.ofList [("name", .str "other"), ("url", .str "tcp://other:2375")]]

/-- A stamped service declaring `host: node1`. -/
def svcHostNode1 : Service :=
  { dict := .ofList [("name", .str "nova"), ("image", .str "img"), ("host", .str "node1")],
    cluster_name := "core",
    cluster := { name := some "core", services := none, vars := none, images := none,
                 hosts := some hostsOther } }

/-- CLI arguments carrying a full API override. -/
def argsOverride : AppArgs :=
  { argsBase with docker_url := some "tcp://u:2375", docker_version := some "1.12" }

/-- Cluster `ca` used by the scoped-resolution witness. -/
def cluScoped : Cluster :=
  { name := some "ca", services := some (.str "- name: sx\n  image: im"),
    vars := none, images := some (.str "d"), hosts := none }

/-- YAML parse of `cluScoped`'s services document. -/
def yloadScoped : String → Except Err PyVal := fun s =>
  if s = "- name: sx\n  image: im" then
    .ok (.list (.ofList [.dict (.ofList [("name", .str "sx"), ("image", .str "im")])]))
  else .error .parseError

/-- CLI arguments scoped to cluster `ca` with model path `m/x.yml`. -/
def argsScoped : AppArgs :=
  { argsBase with shdk_cluster := some "ca", shdk_model := some "m/x.yml" }

/-- The parsed services value of `cluScoped`. -/
def parsedScoped : PyVal :=
  .list (.ofList [.dict (.ofList [("name", .str "sx"), ("image", .str "im")])])

/-- The descriptor the scoped resolution returns. -/
def rvScoped : ResolvedService :=
  { base := { dict := .ofList [("name", .str "sx"), ("image", .str "im")],
              cluster_name := "ca",
              cluster := { cluScoped with services := some parsedScoped } },
    images_dir := "m/d", path := "m/d/im", ports := none, port_bindings := none,
    volumes := none, binds := none, api_cfg := .nil }

/-- Cluster whose services template mentions the variable `x`, which its
`vars` mapping does not define (it defines an unused `y` instead). -/
def cluTemplate : Cluster :=
  { name := some "ca", services := some (.str "- name: ax\x7b\x7b x \x7d\x7d"),
    vars := some [("y", "v")], images := none, hosts := none }

/-- YAML parse of the rendered template `"- name: ax"` (the unbound `x`
rendered as the empty string). -/
def yloadTemplate : String → Except Err PyVal := fun s =>
  if s = "- name: ax" then .ok (.list (.ofList [.dict (.ofList [("name", .str "ax")])]))
  else .error .parseError

/-- The parsed services value of the rendered template. -/
def parsedTemplate : PyVal := .list (.ofList [.dict (.ofList [("name", .str "ax")])])

/-- A parse function that always fails with a plain parse error. -/
def yloadFail : String → Except Err PyVal := fun _ => .error .parseError

/-- A minimal cluster fed to `yloadFail`. -/
def cluFail : Cluster :=
  { name := some "c", services := some (.str "x"), vars := none, images := none,
    hosts := none }

/-- File system with a single includable file `base/sub.yml`. -/
def fsBase : List (String × RNode) := [("base/sub.yml", .scalar "hello")]

/-- A one-cluster document for the cluster-resolution witness. -/
def cluA : Cluster :=
  { name := some "a", services := some (.str "- x"), vars := none, images := none,
    hosts := none }

theorem getClustersList_ok_eq : ∀ cs cl : List Cluster,
    getClustersList cs = .ok cl → cl = cs.map strCluster := by
  intro cs
  induction cs with
  | nil =>
    intro cl h
    cases h
    rfl
  | cons c rest ih =>
    intro cl h
    unfold getClustersList at h
    cases hc : strServices c with
    | error e => rw [hc] at h; exact Except.noConfusion h
    | ok c2 =>
      rw [hc] at h
      cases hr : getClustersList rest with
      | error e => rw [hr] at h; exact Except.noConfusion h
      | ok rest2 =>
        rw [hr] at h
        cases h
        have h2 := ih rest2 hr
        unfold strServices at hc
        cases hs : c.services with
        | none => rw [hs] at hc; exact Except.noConfusion hc
        | some v =>
          rw [hs] at hc
          cases hc
          simp [strCluster, hs, h2]

theorem getClustersList_of_isSome : ∀ cs : List Cluster,
    (∀ c ∈ cs, c.services.isSome = true) →
    getClustersList cs = .ok (cs.map strCluster) := by
  intro cs
  induction cs with
  | nil => intro _; rfl
  | cons c rest ih =>
    intro h
    obtain ⟨v, hv⟩ := Option.isSome_iff_exists.1 (h c (by simp))
    have hrest := ih (fun d hd => h d (by simp [hd]))
    simp [getClustersList, strServices, hv, hrest, strCluster]

theorem filterByName_eq_filter : ∀ (cl : List Cluster) (n : String),
    (∀ c ∈ cl, c.name.isSome = true) →
    filterByName cl n = .ok (cl.filter (fun c => decide (c.name = some n))) := by
  intro cl n
  induction cl with
  | nil => intro _; rfl
  | cons c rest ih =>
    intro h
    obtain ⟨cn, hcn⟩ := Option.isSome_iff_exists.1 (h c (by simp))
    have hrest := ih (fun d hd => h d (by simp [hd]))
    by_cases he : cn = n
    · subst he
      simp [filterByName, hcn, hrest]
    · simp [filterByName, hcn, hrest, he]

theorem filterByName_names : ∀ (cl : List Cluster) (n : String) (ms : List Cluster),
    filterByName cl n = .ok ms → ∀ m ∈ ms, m.name = some n := by
  intro cl
  induction cl with
  | nil =>
    intro n ms h m hm
    cases h
    simp at hm
  | cons c rest ih =>
    intro n ms h m hm
    unfold filterByName at h
    cases hn : c.name with
    | none => rw [hn] at h; exact Except.noConfusion h
    | some cn =>
      rw [hn] at h
      cases hr : filterByName rest n with
      | error e => rw [hr] at h; exact Except.noConfusion h
      | ok r =>
        rw [hr] at h
        cases h
        by_cases he : cn = n
        · subst he
          rw [if_pos rfl] at hm
          rcases List.mem_cons.1 hm with hm | hm
          · rw [hm]; exact hn
          · exact ih _ r hr m hm
        · rw [if_neg he] at hm
          exact ih _ r hr m hm


theorem getCluster_name (cs : List Cluster) (n : String) (c : Cluster)
    (h : getCluster cs n = .ok c) : c.name = some n := by
  unfold getCluster at h
  cases h1 : getClustersList cs with
  | error e => rw [h1] at h; exact Except.noConfusion h
  | ok cl =>
    rw [h1] at h
    dsimp only at h
    cases h2 : filterByName cl n with
    | error e =>
      rw [h2] at h
      cases e <;> exact Except.noConfusion h
    | ok ms =>
      rw [h2] at h
      dsimp only at h
      by_cases hl : ms.length > 1
      · rw [if_pos hl] at h; exact Except.noConfusion h
      · rw [if_neg hl] at h
        cases ms with
        | nil => exact Except.noConfusion h
        | cons m rest =>
          have hc : m = c := Except.ok.inj h
          rw [← hc]
          exact filterByName_names cl n (m :: rest) h2 m (by simp)

/-- C1: for a document whose clusters all carry `name` and `services` keys,
`_get_cluster(name)` returns the unique cluster whose `name` equals the
requested name when exactly one exists (the record as mutated in place by
the listing pass, i.e. with `services` coerced to its string form), raises
the cluster-not-found model error (the spec's `ClusterNotFoundError`) when
no cluster matches, and the duplicate-definition model error (the spec's
`DuplicateClusterError`) when two or more match — for any cluster sequence,
including ones with duplicate names. -/
theorem C1_resolve_cluster (clusters : List Cluster) (name : String)
    (hn : ∀ c ∈ clusters, c.name.isSome = true)
    (hs : ∀ c ∈ clusters, c.services.isSome = true) :
    (clusters.filter (fun c => decide (c.name = some name)) = [] →
      getCluster clusters name = .error (.templateFileError .clusterNotFound name)) ∧
    (∀ u, clusters.filter (fun c => decide (c.name = some name)) = [u] →
      getCluster clusters name = .ok (strCluster u) ∧ u.name = some name) ∧
    (2 ≤ (clusters.filter (fun c => decide (c.name = some name))).length →
      getCluster clusters name = .error (.templateFileError .duplicateCluster name)) := by
  have h1 := getClustersList_of_isSome clusters hs
  have hn2 : ∀ c ∈ clusters.map strCluster, c.name.isSome = true := by
    intro c hc
    obtain ⟨d, hd, rfl⟩ := List.mem_map.1 hc
    exact hn d hd
  have h2 := filterByName_eq_filter (clusters.map strCluster) name hn2
  have h3 : (clusters.map strCluster).filter (fun c => decide (c.name = some name))
      = (clusters.filter (fun c => decide (c.name = some name))).map strCluster := by
    rw [List.filter_map]
    rfl
  refine ⟨?_, ?_, ?_⟩
  · intro hf
    unfold getCluster
    rw [h1]
    dsimp only
    rw [h2, h3, hf]
    rfl
  · intro u hf
    refine ⟨?_, ?_⟩
    · unfold getCluster
      rw [h1]
      dsimp only
      rw [h2, h3, hf]
      rfl
    · have hu : u ∈ clusters.filter (fun c => decide (c.name = some name)) := by
        rw [hf]; simp
      exact of_decide_eq_true (List.mem_filter.1 hu).2
  · intro hf
    unfold getCluster
    rw [h1]
    dsimp only
    rw [h2, h3]
    dsimp only
    have hl : ((clusters.filter (fun c => decide (c.name = some name))).map strCluster).length > 1 := by
      rw [List.length_map]
      omega
    rw [if_pos hl]

/-- C1 witness: a one-cluster document resolves its cluster by name. -/
theorem C1_resolve_cluster_inst : getCluster [cluA] "a" = .ok (strCluster cluA) :=
  ((C1_resolve_cluster [cluA] "a" (by decide) (by decide)).2.1 cluA (by decide)).1

/-- C4 counterexample: on the raw shape the claim prescribes — `volumes` as
a sequence of `\x7bmount, host_dir\x7d` entries — the volumes block raises
`AttributeError` (the sequence has no `.keys()`), not the claimed
`volumes`/`binds` outputs and not a `MalformedVolumeError` (no such check
exists in the code). -/
theorem C4_volumes_seq_fails : volumesStep svcVolSeq = .error .attributeError := rfl

/-- C4 (amended): the code reads the raw `volumes` value as a mapping:
normalization sets `volumes` to the mapping's ordered key sequence and keeps
the mapping verbatim as `binds`; the sequence shape claimed by the spec
raises `AttributeError`, and no volume-entry validation exists. -/
theorem C4_volumes_mapping (svc : Service) (kvs : PyDict) :
    (svc.dict.get "volumes" = some (.dict kvs) →
      volumesStep svc = .ok (some kvs.keys, some (.dict kvs))) ∧
    (∀ xs : PyList, svc.dict.get "volumes" = some (.list xs) →
      volumesStep svc = .error .attributeError) := by
  refine ⟨?_, ?_⟩
  · intro h
    unfold volumesStep
    rw [h]
  · intro xs h
    unfold volumesStep
    rw [h]

/-- C4 witness: the spec's example volume, in the mapping shape the code
reads, yields `volumes == ["/var/log/nova"]` and `binds` equal to the raw
mapping. -/
theorem C4_volumes_mapping_inst :
    volumesStep svcVolMap = .ok (some ["/var/log/nova"], some (.dict volMap)) :=
  (C4_volumes_mapping svcVolMap volMap).1 rfl

/-- C5 counterexample: one `_get_clusters_list` call mutates the loaded
tree — the cluster's structured `services` value `[]` is replaced in place
by the string `"[]"`, so the tree after the lookup differs from its state
after load. -/
theorem C5_lookup_mutates :
    getClustersList cexClusters = .ok cexClustersAfter ∧ cexClustersAfter ≠ cexClusters :=
  ⟨rfl, by decide⟩

/-- C5 (amended): lookups do mutate the tree, in exactly this way — cluster
listing rewrites every cluster's `services` value to its `str()` form and
leaves all other fields unchanged (service-list expansion then further
replaces it with the parsed list and stamps the service records, see
`servicesListFromClu`). -/
theorem C5_services_coerced (cs cl : List Cluster)
    (h : getClustersList cs = .ok cl) : cl = cs.map strCluster :=
  getClustersList_ok_eq cs cl h

/-- C5 witness: the mutated tree of the counterexample document is exactly
the `str()`-coercion image of the loaded tree. -/
theorem C5_services_coerced_inst : cexClustersAfter = cexClusters.map strCluster :=
  C5_services_coerced cexClusters cexClustersAfter rfl

/-- C6: the code contradicts its own error message.  A service resolved with
no CLI images override in a cluster whose record lacks the `images` key dies
with an uncaught `KeyError` — the handler at model.py:141 catches
`TypeError` only, although its message reads "Cluster definition in your
model is missing the images key" — instead of the model error the spec (and
the message) promise.  The second conjunct checks the half of the claim the
code does honour: a missing `image` key raises the model error naming the
service. -/
theorem C6_missing_images_key_bug :
    getService yloadNova argsBase [cluNoImages] "nova" = .error (.keyError "images") ∧
    getService yloadNova argsBase [cluNoImage] "nova"
      = .error (.templateFileError .missingImage "nova") :=
  ⟨rfl, rfl⟩

/-- C10 counterexample: with no CLI override, a service with no `host` key
in a cluster whose `hosts` is present but empty does not succeed with
`api_cfg = \x7b\x7d`: the `IndexError` handler interpolates
`service['host']` into its message and that read raises an uncaught
`KeyError`. -/
theorem C10_empty_hosts_keyerror :
    getService yloadNova argsBase [cluEmptyHosts] "nova" = .error (.keyError "host") := rfl

/-- C10 (amended): with no CLI override, `api_cfg` is silently the empty
dict whenever the cluster has no `hosts` key, or the service has no `host`
key and `hosts` is a nonempty sequence (the comprehension's `KeyError` is
swallowed); but when the service has no `host` key and `hosts` is present
and empty, resolution instead dies with an uncaught `KeyError` raised while
the host-not-found message is being formatted. -/
theorem C10_api_cfg_default (args : AppArgs) (svc : Service) (name : String)
    (hov : args.docker_url = none) :
    (svc.cluster.hosts = none → apiCfgStep args svc name = .ok .nil) ∧
    (∀ a rest, svc.cluster.hosts = some (a :: rest) → svc.dict.get "host" = none →
      apiCfgStep args svc name = .ok .nil) ∧
    (svc.cluster.hosts = some [] → svc.dict.get "host" = none →
      apiCfgStep args svc name = .error (.keyError "host")) := by
  refine ⟨?_, ?_, ?_⟩
  · intro h
    unfold apiCfgStep
    rw [hov, h]
  · intro a rest h hh
    unfold apiCfgStep
    rw [hov, h]
    cases han : a.get "name" with
    | none => simp [hostScan, han]
    | some v => simp [hostScan, han, hh]
  · intro h hh
    unfold apiCfgStep
    rw [hov, h]
    simp [hostScan, hh]

/-- C10 witness: the empty-`hosts`, no-`host` service of the counterexample
model hits the `KeyError` branch of the amended statement. -/
theorem C10_api_cfg_default_inst :
    apiCfgStep argsBase svcNoHost "nova" = .error (.keyError "host") :=
  (C10_api_cfg_default argsBase svcNoHost "nova" rfl).2.2 rfl rfl

theorem hostScan_eq_filter (d : PyDict) (hv : PyVal) :
    ∀ hosts : List PyDict,
    d.get "host" = some hv →
    (∀ a ∈ hosts, (a.get "name").isSome = true) →
    hostScan d hosts = .ok (hosts.filter (fun a => decide (a.get "name" = some hv))) := by
  intro hosts hh
  induction hosts with
  | nil => intro _; rfl
  | cons a rest ih =>
    intro h
    obtain ⟨v, hva⟩ := Option.isSome_iff_exists.1 (h a (by simp))
    have hrest := ih (fun b hb => h b (by simp [hb]))
    by_cases he : v = hv
    · subst he
      simp [hostScan, hva, hh, hrest]
    · simp [hostScan, hva, hh, hrest, he]

/-- C2: with no CLI API override, for a service declaring `host` in a
cluster whose `hosts` sequence is present with every entry named, failing to
find exactly one matching host is an error: zero matches raise the
host-not-found model error (the spec's `HostNotFoundError`, naming the
declared host), two or more the duplicate model error (the spec's
`DuplicateHostError`); the declared host is not dropped and `api_cfg` is not
defaulted. -/
theorem C2_host_resolution_errors (args : AppArgs) (svc : Service) (name h : String)
    (hosts : List PyDict)
    (hov : args.docker_url = none)
    (hh : svc.dict.get "host" = some (.str h))
    (hcl : svc.cluster.hosts = some hosts)
    (hnm : ∀ a ∈ hosts, (a.get "name").isSome = true) :
    (hosts.filter (fun a => decide (a.get "name" = some (.str h))) = [] →
      apiCfgStep args svc name = .error (.templateFileError .hostNotFound h)) ∧
    (2 ≤ (hosts.filter (fun a => decide (a.get "name" = some (.str h)))).length →
      apiCfgStep args svc name = .error (.templateFileError .duplicateHost name)) := by
  have hsc := hostScan_eq_filter svc.dict (.str h) hosts hh hnm
  refine ⟨?_, ?_⟩
  · intro hf
    unfold apiCfgStep
    rw [hov]
    dsimp only
    rw [hcl]
    dsimp only
    rw [hsc, hf]
    dsimp only
    rw [hh]
    rfl
  · intro hf
    have hl : (hosts.filter (fun a => decide (a.get "name" = some (.str h)))).length > 1 := by
      omega
    unfold apiCfgStep
    rw [hov]
    dsimp only
    rw [hcl]
    dsimp only
    rw [hsc]
    dsimp only
    rw [if_pos hl]

/-- C2 witness: host `node1` declared, hosts sequence contains only `other`:
zero matches raise the host-not-found model error. -/
theorem C2_host_resolution_errors_inst :
    apiCfgStep argsBase svcHostNode1 "nova"
      = .error (.templateFileError .hostNotFound "node1") :=
  (C2_host_resolution_errors argsBase svcHostNode1 "nova" "node1" hostsOther
    rfl rfl rfl (by decide)).1 (by decide)

theorem getService_ok_inv (yload : String → Except Err PyVal) (args : AppArgs)
    (clusters : List Cluster) (name : String) (r : ResolvedService)
    (h : getService yload args clusters name = .ok r) :
    ∃ svcs, getServicesList yload args clusters = .ok svcs ∧
      pickService svcs name = .ok r.base ∧
      apiCfgStep args r.base name = .ok r.api_cfg := by
  unfold getService at h
  cases h1 : getServicesList yload args clusters with
  | error e => rw [h1] at h; exact Except.noConfusion h
  | ok svcs =>
    rw [h1] at h
    dsimp only at h
    cases h2 : pickService svcs name with
    | error e => rw [h2] at h; exact Except.noConfusion h
    | ok svc =>
      rw [h2] at h
      dsimp only at h
      cases h3 : imagesDirStep args svc with
      | error e => rw [h3] at h; exact Except.noConfusion h
      | ok imgdir =>
        rw [h3] at h
        dsimp only at h
        cases h4 : imageStep svc name with
        | error e => rw [h4] at h; exact Except.noConfusion h
        | ok img =>
          rw [h4] at h
          dsimp only at h
          cases h5 : portsStep svc with
          | error e => rw [h5] at h; exact Except.noConfusion h
          | ok pp =>
            rw [h5] at h
            dsimp only at h
            cases h6 : volumesStep svc with
            | error e => rw [h6] at h; exact Except.noConfusion h
            | ok vv =>
              rw [h6] at h
              dsimp only at h
              cases h7 : apiCfgStep args svc name with
              | error e => rw [h7] at h; exact Except.noConfusion h
              | ok api =>
                rw [h7] at h
                dsimp only at h
                have hr := Except.ok.inj h
                refine ⟨svcs, rfl, ?_, ?_⟩
                · rw [← hr]; exact h2
                · rw [← hr]; exact h7

/-- C3: supplying a CLI API override (`docker_url` etc.) makes the resolved
`api_cfg` exactly the override record, and the host/API resolution step is
identical whatever the cluster's `hosts` sequence holds — even a host whose
name matches the service's declared `host` is ignored. -/
theorem C3_api_override_wins (yload : String → Except Err PyVal) (args : AppArgs)
    (clusters : List Cluster) (name u : String)
    (hov : args.docker_url = some u) :
    (∀ r, getService yload args clusters name = .ok r → r.api_cfg = overrideCfg args u) ∧
    (∀ (svc : Service) (nm : String) (h1 h2 : Option (List PyDict)),
      apiCfgStep args { svc with cluster := { svc.cluster with hosts := h1 } } nm
        = apiCfgStep args { svc with cluster := { svc.cluster with hosts := h2 } } nm ∧
      apiCfgStep args { svc with cluster := { svc.cluster with hosts := h1 } } nm
        = .ok (overrideCfg args u)) := by
  have hstep : ∀ (s : Service) (nm : String), apiCfgStep args s nm = .ok (overrideCfg args u) := by
    intro s nm
    unfold apiCfgStep
    rw [hov]
  refine ⟨?_, ?_⟩
  · intro r hr
    obtain ⟨svcs, _, _, h3⟩ := getService_ok_inv yload args clusters name r hr
    rw [hstep r.base name] at h3
    exact (Except.ok.inj h3).symm
  · intro svc nm h1 h2
    exact ⟨by rw [hstep, hstep], hstep _ _⟩

/-- C3 witness: with the override set, the api step ignores a `hosts`
sequence that does contain a host named exactly like the service's declared
`host`, and returns the override record. -/
theorem C3_api_override_wins_inst :
    apiCfgStep argsOverride
        { svcHostNode1 with cluster := { svcHostNode1.cluster with hosts := some hostsNode1 } } "nova"
      = apiCfgStep argsOverride
        { svcHostNode1 with cluster := { svcHostNode1.cluster with hosts := none } } "nova" ∧
    apiCfgStep argsOverride
        { svcHostNode1 with cluster := { svcHostNode1.cluster with hosts := some hostsNode1 } } "nova"
      = .ok (overrideCfg argsOverride "tcp://u:2375") :=
  (C3_api_override_wins yloadNova argsOverride [] "nova" "tcp://u:2375" rfl).2
    svcHostNode1 "nova" (some hostsNode1) none

theorem filterSvcByName_mem : ∀ (svcs : List Service) (n : String) (ms : List Service),
    filterSvcByName svcs n = .ok ms → ∀ m ∈ ms, m ∈ svcs := by
  intro svcs
  induction svcs with
  | nil =>
    intro n ms h m hm
    cases h
    simp at hm
  | cons s rest ih =>
    intro n ms h m hm
    unfold filterSvcByName at h
    cases hs : s.dict.get "name" with
    | none => rw [hs] at h; exact Except.noConfusion h
    | some v =>
      rw [hs] at h
      cases hr : filterSvcByName rest n with
      | error e => rw [hr] at h; exact Except.noConfusion h
      | ok r =>
        rw [hr] at h
        cases h
        by_cases he : v = .str n
        · rw [if_pos he] at hm
          rcases List.mem_cons.1 hm with hm | hm
          · rw [hm]; simp
          · simp [ih _ r hr m hm]
        · rw [if_neg he] at hm
          simp [ih _ r hr m hm]

theorem pickService_mem (svcs : List Service) (n : String) (s : Service)
    (h : pickService svcs n = .ok s) : s ∈ svcs := by
  unfold pickService at h
  cases h1 : filterSvcByName svcs n with
  | error e =>
    rw [h1] at h
    cases e <;> exact Except.noConfusion h
  | ok ms =>
    rw [h1] at h
    dsimp only at h
    by_cases hl : ms.length > 1
    · rw [if_pos hl] at h; exact Except.noConfusion h
    · rw [if_neg hl] at h
      cases ms with
      | nil => exact Except.noConfusion h
      | cons m rest =>
        have hm : m = s := Except.ok.inj h
        rw [← hm]
        exact filterSvcByName_mem svcs n (m :: rest) h1 m (by simp)

theorem stampServices_cname : ∀ (clu : Cluster) (xs : List PyVal) (svcs : List Service),
    stampServices clu xs = .ok svcs → ∀ s ∈ svcs, clu.name = some s.cluster_name := by
  intro clu xs
  induction xs with
  | nil =>
    intro svcs h s hs
    cases h
    simp at hs
  | cons x rest ih =>
    intro svcs h s hs
    unfold stampServices at h
    cases hn : clu.name with
    | none => rw [hn] at h; exact Except.noConfusion h
    | some cn =>
      rw [hn] at h
      dsimp only at h
      cases x with
      | dict kvs =>
        cases hr : stampServices clu rest with
        | error e => rw [hr] at h; exact Except.noConfusion h
        | ok r =>
          rw [hr] at h
          dsimp only at h
          have hv := Except.ok.inj h
          rw [← hv] at hs
          rcases List.mem_cons.1 hs with hm | hm
          · rw [hm]
          · exact hn ▸ ih r hr s hm
      | str s2 => exact Except.noConfusion h
      | int n2 => exact Except.noConfusion h
      | bool b2 => exact Except.noConfusion h
      | pynone => exact Except.noConfusion h
      | list xs2 => exact Except.noConfusion h

theorem servicesListFromClu_cname (yload : String → Except Err PyVal) (c : Cluster)
    (svcs : List Service) (c2 : Cluster)
    (h : servicesListFromClu yload c = .ok (svcs, c2)) :
    ∀ s ∈ svcs, c.name = some s.cluster_name := by
  unfold servicesListFromClu at h
  cases hsv : c.services with
  | none => rw [hsv] at h; exact Except.noConfusion h
  | some sv =>
    rw [hsv] at h
    dsimp only at h
    cases sv with
    | str s0 =>
      dsimp only at h
      cases hp : (match c.vars with
        | some vs => yload (j2render s0 vs)
        | none => yload s0) with
      | error e => rw [hp] at h; exact Except.noConfusion h
      | ok parsed =>
        rw [hp] at h
        dsimp only at h
        cases hie : iterElems parsed with
        | none => rw [hie] at h; exact Except.noConfusion h
        | some elems =>
          rw [hie] at h
          dsimp only at h
          cases hst : stampServices { c with services := some parsed } elems with
          | error e => rw [hst] at h; exact Except.noConfusion h
          | ok svcs0 =>
            rw [hst] at h
            dsimp only at h
            have hpair := Except.ok.inj h
            have h1 : svcs0 = svcs := congrArg Prod.fst hpair
            intro s hs
            have := stampServices_cname { c with services := some parsed } elems svcs0 hst s
              (by rw [h1]; exact hs)
            exact this
    | int n2 => exact Except.noConfusion h
    | bool b2 => exact Except.noConfusion h
    | pynone => exact Except.noConfusion h
    | list xs2 => exact Except.noConfusion h
    | dict kvs2 => exact Except.noConfusion h

theorem getServicesList_scoped (yload : String → Except Err PyVal) (args : AppArgs)
    (clusters : List Cluster) (cn : String) (svcs : List Service)
    (hsc : args.shdk_cluster = some cn)
    (h : getServicesList yload args clusters = .ok svcs) :
    ∀ s ∈ svcs, s.cluster_name = cn := by
  unfold getServicesList at h
  rw [hsc] at h
  dsimp only at h
  cases h1 : getCluster clusters cn with
  | error e => rw [h1] at h; exact Except.noConfusion h
  | ok c =>
    rw [h1] at h
    dsimp only at h
    cases h2 : servicesListFromClu yload c with
    | error e => rw [h2] at h; exact Except.noConfusion h
    | ok p =>
      rw [h2] at h
      obtain ⟨svcs0, c2⟩ := p
      dsimp only at h
      have hv : svcs0 = svcs := Except.ok.inj h
      intro s hs
      have hname := getCluster_name clusters cn c h1
      have hcn := servicesListFromClu_cname yload c svcs0 c2 h2 s (by rw [hv]; exact hs)
      rw [hname] at hcn
      exact (Option.some.inj hcn).symm

/-- C7: service resolution scoped to a cluster only ever returns a service
stamped with that cluster's name: the scoped branch of `get_services_list`
expands only the resolved cluster's service list, and every entry of it is
stamped with that cluster's `name` — so an identically named service in a
different cluster of the document can never be returned. -/
theorem C7_scoped_cluster_stamp (yload : String → Except Err PyVal) (args : AppArgs)
    (clusters : List Cluster) (name cn : String) (r : ResolvedService)
    (hsc : args.shdk_cluster = some cn)
    (h : getService yload args clusters name = .ok r) :
    r.base.cluster_name = cn := by
  obtain ⟨svcs, h1, h2, _⟩ := getService_ok_inv yload args clusters name r h
  exact getServicesList_scoped yload args clusters cn svcs hsc h1 r.base
    (pickService_mem svcs name r.base h2)

/-- C7 witness: resolving `sx` scoped to cluster `ca` returns the descriptor
stamped `ca`. -/
theorem C7_scoped_cluster_stamp_inst :
    getService yloadScoped argsScoped [cluScoped] "sx" = .ok rvScoped ∧
    rvScoped.base.cluster_name = "ca" :=
  ⟨rfl, C7_scoped_cluster_stamp yloadScoped argsScoped [cluScoped] "sx" "ca" rvScoped rfl rfl⟩

theorem loadNode_free (fs : List (String × RNode)) : ∀ n : Nat,
    (∀ d node v, loadNode fs n d node = .ok v → includeFree v = true) ∧
    (∀ d xs ys, loadList fs n d xs = .ok ys → includeFreeL ys = true) ∧
    (∀ d kvs ws, loadKVs fs n d kvs = .ok ws → includeFreeK ws = true) := by
  intro n
  induction n with
  | zero =>
    refine ⟨?_, ?_, ?_⟩ <;> intro d x v h <;> exact Except.noConfusion h
  | succ n ih =>
    obtain ⟨ihN, ihL, ihK⟩ := ih
    refine ⟨?_, ?_, ?_⟩
    · intro d node v h
      cases node with
      | scalar s =>
        have hv := Except.ok.inj h
        rw [← hv]
        rfl
      | seq xs =>
        unfold loadNode at h
        cases hL : loadList fs n d xs with
        | error e => rw [hL] at h; exact Except.noConfusion h
        | ok ys =>
          rw [hL] at h
          dsimp only at h
          have hv := Except.ok.inj h
          rw [← hv]
          exact ihL d xs ys hL
      | rmap kvs =>
        unfold loadNode at h
        cases hK : loadKVs fs n d kvs with
        | error e => rw [hK] at h; exact Except.noConfusion h
        | ok ws =>
          rw [hK] at h
          dsimp only at h
          have hv := Except.ok.inj h
          rw [← hv]
          exact ihK d kvs ws hK
      | inc f =>
        unfold loadNode at h
        dsimp only at h
        cases hFS : lookupFS fs (pathJoin d f) with
        | none => rw [hFS] at h; exact Except.noConfusion h
        | some content =>
          rw [hFS] at h
          dsimp only at h
          cases hIn : loadNode fs n (dirname (pathJoin d f)) content with
          | error e => rw [hIn] at h; exact Except.noConfusion h
          | ok w =>
            rw [hIn] at h
            dsimp only at h
            have hv := Except.ok.inj h
            rw [← hv]
            exact ihN _ content w hIn
    · intro d xs ys h
      cases xs with
      | nil =>
        have hv := Except.ok.inj h
        rw [← hv]
        rfl
      | cons x xs =>
        unfold loadList at h
        cases hx : loadNode fs n d x with
        | error e => rw [hx] at h; exact Except.noConfusion h
        | ok y =>
          rw [hx] at h
          dsimp only at h
          cases hxs : loadList fs n d xs with
          | error e => rw [hxs] at h; exact Except.noConfusion h
          | ok ys0 =>
            rw [hxs] at h
            dsimp only at h
            have hv := Except.ok.inj h
            rw [← hv]
            unfold includeFreeL
            rw [ihN d x y hx, ihL d xs ys0 hxs]
            rfl
    · intro d kvs ws h
      cases kvs with
      | nil =>
        have hv := Except.ok.inj h
        rw [← hv]
        rfl
      | cons k v kvs =>
        unfold loadKVs at h
        cases hx : loadNode fs n d v with
        | error e => rw [hx] at h; exact Except.noConfusion h
        | ok w =>
          rw [hx] at h
          dsimp only at h
          cases hxs : loadKVs fs n d kvs with
          | error e => rw [hxs] at h; exact Except.noConfusion h
          | ok ws0 =>
            rw [hxs] at h
            dsimp only at h
            have hv := Except.ok.inj h
            rw [← hv]
            unfold includeFreeK
            rw [ihN d v w hx, ihK d kvs ws0 hxs]
            rfl

/-- C8: the `Loader` replaces an `!include` node by the parsed content of
the named file, resolved relative to the directory of the *including* file:
the joined path's own directory becomes the base for the included file's
nested includes (conjunct 2, recursion at `dirname (pathJoin dir f)`); an
include naming a missing file raises the include-not-found model error (the
spec's `IncludeNotFoundError`), not a bare I/O failure (conjunct 1); and a
successfully loaded tree contains no unresolved include tag (conjunct 3). -/
theorem C8_loader_includes (fs : List (String × RNode)) (fuel : Nat) (dir f : String) :
    (lookupFS fs (pathJoin dir f) = none →
      loadNode fs (fuel + 1) dir (.inc f)
        = .error (.templateFileError .includeNotFound (pathJoin dir f))) ∧
    (∀ content v, lookupFS fs (pathJoin dir f) = some content →
      loadNode fs fuel (dirname (pathJoin dir f)) content = .ok v →
      loadNode fs (fuel + 1) dir (.inc f) = .ok v) ∧
    (∀ n d node v, loadNode fs n d node = .ok v → includeFree v = true) := by
  refine ⟨?_, ?_, ?_⟩
  · intro h
    unfold loadNode
    dsimp only
    rw [h]
  · intro content v h1 h2
    unfold loadNode
    dsimp only
    rw [h1]
    dsimp only
    rw [h2]
  · intro n d node v h
    exact (loadNode_free fs n).1 d node v h

/-- C8 witness: a document in directory `base` including `sub.yml` resolves
it to `base/sub.yml` and splices in its parsed content. -/
theorem C8_loader_includes_inst :
    loadNode fsBase 2 "base" (.inc "sub.yml") = .ok (.scalar "hello") :=
  (C8_loader_includes fsBase 1 "base" "sub.yml").2.1 (.scalar "hello") (.scalar "hello") rfl rfl

/-- C9 counterexample: a cluster whose `vars` mapping (here the single,
unused entry `y`) does not bind the template variable `x` expands its
services without any error: jinja2's default `Undefined` renders `x` as the
empty string, the rendered document parses, and the stamped service list is
returned — no `TemplateFileError` is raised. -/
theorem C9_missing_var_renders_empty :
    servicesListFromClu yloadTemplate cluTemplate
      = .ok ([{ dict := .ofList [("name", .str "ax")], cluster_name := "ca",
                cluster := { cluTemplate with services := some parsedTemplate } }],
             { cluTemplate with services := some parsedTemplate }) := rfl

theorem stampServices_err : ∀ (clu : Cluster) (xs : List PyVal) (e : Err),
    stampServices clu xs = .error e → e.isTemplate = false := by
  intro clu xs
  induction xs with
  | nil =>
    intro e h
    exact Except.noConfusion h
  | cons x rest ih =>
    intro e h
    unfold stampServices at h
    cases hn : clu.name with
    | none =>
      rw [hn] at h
      have := Except.error.inj h
      rw [← this]
      rfl
    | some cn =>
      rw [hn] at h
      dsimp only at h
      cases x with
      | dict kvs =>
        cases hr : stampServices clu rest with
        | error e2 =>
          rw [hr] at h
          dsimp only at h
          have := Except.error.inj h
          rw [← this]
          exact ih e2 hr
        | ok r =>
          rw [hr] at h
          dsimp only at h
          exact Except.noConfusion h
      | str s2 => exact (Except.error.inj h) ▸ rfl
      | int n2 => exact (Except.error.inj h) ▸ rfl
      | bool b2 => exact (Except.error.inj h) ▸ rfl
      | pynone => exact (Except.error.inj h) ▸ rfl
      | list xs2 => exact (Except.error.inj h) ▸ rfl

/-- C9 (amended): the template-expansion path raises no `TemplateFileError`
at all — in particular none for a template variable missing from `vars`
(jinja2's default `Undefined` renders it as the empty string) and none for
unused `vars` entries.  Provided the external YAML parse raises no
`TemplateFileError` (it raises its own parser errors), every error
`_get_services_list_from_clu` can produce is one of the uncaught Python
built-ins (`KeyError`, `TypeError`), never a model error. -/
theorem C9_expansion_no_template_err (yload : String → Except Err PyVal) (c : Cluster)
    (hy : ∀ s e, yload s = .error e → e.isTemplate = false) :
    ∀ e, servicesListFromClu yload c = .error e → e.isTemplate = false := by
  intro e h
  unfold servicesListFromClu at h
  cases hsv : c.services with
  | none =>
    rw [hsv] at h
    exact (Except.error.inj h) ▸ rfl
  | some sv =>
    rw [hsv] at h
    dsimp only at h
    cases sv with
    | str s0 =>
      dsimp only at h
      cases hp : (match c.vars with
        | some vs => yload (j2render s0 vs)
        | none => yload s0) with
      | error e2 =>
        rw [hp] at h
        dsimp only at h
        have he := Except.error.inj h
        rw [← he]
        cases hv : c.vars with
        | none => rw [hv] at hp; exact hy s0 e2 hp
        | some vs => rw [hv] at hp; exact hy (j2render s0 vs) e2 hp
      | ok parsed =>
        rw [hp] at h
        dsimp only at h
        cases hie : iterElems parsed with
        | none =>
          rw [hie] at h
          exact (Except.error.inj h) ▸ rfl
        | some elems =>
          rw [hie] at h
          dsimp only at h
          cases hst : stampServices { c with services := some parsed } elems with
          | error e2 =>
            rw [hst] at h
            dsimp only at h
            have he := Except.error.inj h
            rw [← he]
            exact stampServices_err _ elems e2 hst
          | ok svcs =>
            rw [hst] at h
            exact Except.noConfusion h
    | int n2 => exact (Except.error.inj h) ▸ rfl
    | bool b2 => exact (Except.error.inj h) ▸ rfl
    | pynone => exact (Except.error.inj h) ▸ rfl
    | list xs2 => exact (Except.error.inj h) ▸ rfl
    | dict kvs2 => exact (Except.error.inj h) ▸ rfl

/-- C9 witness: even when the external parse itself fails, what expansion
reports is the parse failure, not a `TemplateFileError`. -/
theorem C9_expansion_no_template_err_inst :
    servicesListFromClu yloadFail cluFail = .error .parseError ∧
    Err.isTemplate .parseError = false :=
  ⟨rfl, C9_expansion_no_template_err yloadFail cluFail
    (fun s e he => by cases he; rfl) .parseError rfl⟩

end Shaddock
